import Mathlib

/-!
Shallow embedding of `src/uct/base/uct_md.c` (the UCT memory-domain /
transport abstraction layer) together with theorems checking the
specification's claims about it.

Modelling conventions:
* C status codes become the inductive `ucs_status_t`.
* Out-parameter style C functions become Lean functions returning
  `Except ucs_status_t _` (an `error` result models "the out parameters
  were not written").
* Byte buffers (`void *` / `char *` regions) become `List Nat`, a byte 0
  being the C NUL terminator.
* Allocation primitives that may fail (`ucs_realloc`, `ucs_calloc`,
  `ucs_strdup`) are parameterised by explicit success oracles, so theorems
  can quantify over every allocator behaviour.
* Compile-time flags (`ENABLE_DEBUG_DATA`, `ENABLE_PARAMS_CHECK`) become
  `Bool` parameters.
-/

/-- Status codes of the layer (`ucs_status_t`). `UCS_ERR_UNSUPPORTED` stands
for the component-specific error codes that this layer passes through
unmodified. -/
inductive ucs_status_t where
  | UCS_OK
  | UCS_ERR_NO_MEMORY
  | UCS_ERR_INVALID_PARAM
  | UCS_ERR_NO_DEVICE
  | UCS_ERR_NO_ELEM
  | UCS_ERR_UNSUPPORTED
deriving DecidableEq, Repr

open ucs_status_t

/-- Modelled from the spec: `UCT_MD_COMPONENT_NAME_MAX`, the fixed shared
width of the embedded component-name region of a packed rkey; the defining
uct header is not under src/. Only its being a fixed shared constant
matters. -/
def UCT_MD_COMPONENT_NAME_MAX : Nat := 16

/-- Modelled from the spec: the address-based ("sockaddr") capability bit of
`md_attr.cap.flags`; the defining uct header is not under src/. -/
def UCT_MD_FLAG_SOCKADDR : Nat := 256

/-- Modelled from the spec: `UCT_MD_MEM_ACCESS_ALL`, the mask of the memory
access-rights bits (read / write / atomic); the defining uct header is not
under src/. -/
def UCT_MD_MEM_ACCESS_ALL : Nat := 224

/-- Modelled from the spec: the bit of `params.field_mask` saying that the
open-mode field of the interface parameters is present. -/
def UCT_IFACE_PARAM_FIELD_OPEN_MODE : Nat := 1

/-- Modelled from the spec: open-mode bit for opening a named device. -/
def UCT_IFACE_OPEN_MODE_DEVICE : Nat := 1

/-- Modelled from the spec: open-mode bit for a sockaddr client interface. -/
def UCT_IFACE_OPEN_MODE_SOCKADDR_CLIENT : Nat := 2

/-- Modelled from the spec: open-mode bit for a sockaddr server interface. -/
def UCT_IFACE_OPEN_MODE_SOCKADDR_SERVER : Nat := 4

/-- Recursion core of the `strncmp` comparison, on the byte budget. -/
def strncmpEqAux : Nat → List Nat → List Nat → Bool
  | 0, _, _ => true
  | _ + 1, [], [] => true
  | _ + 1, [], y :: _ => y == 0
  | _ + 1, x :: _, [] => x == 0
  | n + 1, x :: xs, y :: ys =>
      if x ≠ y then false
      else if x = 0 then true
      else strncmpEqAux n xs ys

/-- C `strncmp(a, b, n) == 0` on NUL-terminated byte regions: the two
regions agree up to the n-th byte or up to a common NUL, whichever comes
first. A list's end is read as NUL. -/
def strncmpIsEq (a b : List Nat) (n : Nat) : Bool := strncmpEqAux n a b

/-- Transport resource descriptor (`uct_tl_resource_desc_t`): the transport
name it is tagged with, plus the device identity fields. -/
structure uct_tl_resource_desc_t where
  tl_name : String
  dev_name : String
  dev_type : Nat
deriving DecidableEq, Repr

/-- Transport component (`uct_tl_component_t`). `query_resources` is the
result of invoking the transport's resource-query operation on the md at
hand (failure or a descriptor list), and `iface_open_result` the result of
its interface-open operation: the returned status together with the
interface written to the out parameter (`none` when it is not written). -/
structure uct_tl_component_t where
  name : String
  query_resources : Except ucs_status_t (List uct_tl_resource_desc_t)
  iface_open_result : ucs_status_t × Option Nat

/-- MD component (`uct_md_component_t`): fixed-width name bytes, the list of
transports registered on it (registration order), and its rkey unpack
operation, a function of the payload buffer returning rkey and handle. -/
structure uct_md_component_t where
  name : List Nat
  tl_list : List uct_tl_component_t
  rkey_unpack : List Nat → Except ucs_status_t (Nat × Option Nat)

/-- MD attributes (`uct_md_attr_t`): capability flags and limits, the
registration cost and cpu mask, the packed rkey size and the fixed-width
component name. -/
structure uct_md_attr_t where
  cap_flags : Nat
  cap_max_alloc : Nat
  cap_max_reg : Nat
  reg_cost : Nat
  local_cpus : Nat
  rkey_packed_size : Nat
  component_name : List Nat
deriving DecidableEq, Repr

/-- MD operation table (`uct_md_ops_t`), the device-specific operations an
opened MD delegates to. `query` is the result of the component's query on
this md; `mem_alloc` maps (length, flags, allocation name) to (length,
address, memh); `mem_reg` maps (address, length, flags) to a memh. -/
structure uct_md_ops_t where
  query : Except ucs_status_t uct_md_attr_t
  mem_alloc : Nat → Nat → String → Except ucs_status_t (Nat × Nat × Nat)
  mem_reg : Nat → Nat → Nat → Except ucs_status_t Nat

/-- Opened memory domain handle (`uct_md_t`): its owning component and its
operation table. -/
structure uct_md_t where
  component : uct_md_component_t
  ops : uct_md_ops_t

/-- Outcome of `uct_md_query_tl_resources`: success with the aggregated
descriptor array, an error status with the out parameters unwritten, or a
process abort by the always-enabled assertion
`ucs_assert_always(!strcmp(tlc->name, tl_resources[i].tl_name))`. -/
inductive QueryTLResult where
  | ok (resources : List uct_tl_resource_desc_t)
  | err (status : ucs_status_t)
  | assertFailed
deriving DecidableEq, Repr

/-- Concatenation loop of `uct_md_query_tl_resources` (uct_md.c:94-126).
`allocOk k` tells whether the k-th `ucs_realloc` call of this invocation
succeeds. A transport whose query fails is skipped (`continue`), as is one
reporting zero resources; a failed realloc frees the accumulated array and
returns `UCS_ERR_NO_MEMORY`; a descriptor tagged with a name other than its
transport's trips the always-enabled assertion. -/
def uct_md_query_tl_resources_loop (allocOk : Nat → Bool) :
    List uct_tl_component_t → Nat → List uct_tl_resource_desc_t → QueryTLResult
  | [], _, acc => .ok acc
  | tlc :: rest, k, acc =>
    match tlc.query_resources with
    | .error _ => uct_md_query_tl_resources_loop allocOk rest k acc
    | .ok tlres =>
      if tlres.length = 0 then
        uct_md_query_tl_resources_loop allocOk rest k acc
      else if allocOk k = false then
        .err UCS_ERR_NO_MEMORY
      else if tlres.all (fun r => r.tl_name == tlc.name) then
        uct_md_query_tl_resources_loop allocOk rest (k + 1) (acc ++ tlres)
      else
        .assertFailed

/-- `uct_md_query_tl_resources` (uct_md.c:80-135): aggregate the resource
descriptors of every transport registered on the md's component. -/
def uct_md_query_tl_resources (md : uct_md_t) (allocOk : Nat → Bool) : QueryTLResult :=
  uct_md_query_tl_resources_loop allocOk md.component.tl_list 0 []

/-- Descriptor list a transport contributes: its query result on success,
nothing on failure. -/
def tl_query_ok (tlc : uct_tl_component_t) : List uct_tl_resource_desc_t :=
  match tlc.query_resources with
  | .ok l => l
  | .error _ => []

/-- Does the concatenation loop of `uct_md_query_tl_resources` reach a
`ucs_realloc` call that the allocator refuses? Mirrors the loop's control
flow; used to state the allocation-failure claim. -/
def reachesFailedRealloc (allocOk : Nat → Bool) :
    List uct_tl_component_t → Nat → Bool
  | [], _ => false
  | tlc :: rest, k =>
    match tlc.query_resources with
    | .error _ => reachesFailedRealloc allocOk rest k
    | .ok tlres =>
      if tlres.length = 0 then reachesFailedRealloc allocOk rest k
      else if allocOk k = false then true
      else if tlres.all (fun r => r.tl_name == tlc.name) then
        reachesFailedRealloc allocOk rest (k + 1)
      else false

/-- `uct_find_tl_on_md` (uct_md.c:217-230): linear scan of the component's
registered transports; with a name, first exact name match; with no name,
the scan condition is the md's sockaddr capability bit, so the first
transport is returned whenever the bit is set. `none` models the C NULL
"not found" sentinel. -/
def uct_find_tl_on_md (mdc : uct_md_component_t) (md_flags : Nat)
    (tl_name : Option String) : Option uct_tl_component_t :=
  mdc.tl_list.find? (fun tl =>
    match tl_name with
    | some n => n == tl.name
    | none => md_flags &&& UCT_MD_FLAG_SOCKADDR != 0)

/-- `uct_md_query` (uct_md.c:390-408): delegate to the component's query,
then overwrite the component-name field with the owning component's name
(the `memcpy` of `UCT_MD_COMPONENT_NAME_MAX` bytes) and, under
`ENABLE_DEBUG_DATA` only, grow the reported packed rkey size by
`UCT_MD_COMPONENT_NAME_MAX`. -/
def uct_md_query (debugData : Bool) (md : uct_md_t) :
    Except ucs_status_t uct_md_attr_t :=
  match md.ops.query with
  | .error s => .error s
  | .ok attr =>
    let attr2 := { attr with component_name := md.component.name }
    .ok (if debugData then
          { attr2 with rkey_packed_size :=
              attr2.rkey_packed_size + UCT_MD_COMPONENT_NAME_MAX }
         else attr2)

/-- `uct_rkey_unpack` (uct_md.c:355-375). Under `ENABLE_DEBUG_DATA`, the
buffer starts with a fixed-width component-name region: with
`ENABLE_PARAMS_CHECK` a `strncmp` mismatch against the component's name
returns `UCS_ERR_INVALID_PARAM` before the component is invoked; otherwise
the buffer pointer is advanced past the region and the remaining payload is
handed to the component's unpack operation. Without `ENABLE_DEBUG_DATA` the
raw buffer is delegated directly. -/
def uct_rkey_unpack (debugData paramsCheck : Bool) (component : uct_md_component_t)
    (rkey_buffer : List Nat) : Except ucs_status_t (Nat × Option Nat) :=
  if debugData then
    if paramsCheck &&
       !(strncmpIsEq rkey_buffer component.name UCT_MD_COMPONENT_NAME_MAX) then
      .error UCS_ERR_INVALID_PARAM
    else
      component.rkey_unpack (rkey_buffer.drop UCT_MD_COMPONENT_NAME_MAX)
  else
    component.rkey_unpack rkey_buffer

/-- `uct_mem_check_flags` (uct_md.c:410-416): flags must contain at least
one access bit. -/
def uct_mem_check_flags (flags : Nat) : ucs_status_t :=
  if flags &&& UCT_MD_MEM_ACCESS_ALL = 0 then UCS_ERR_INVALID_PARAM else UCS_OK

/-- `uct_md_mem_alloc` (uct_md.c:418-429): check the access flags, then
delegate to the component's `mem_alloc`. -/
def uct_md_mem_alloc (md : uct_md_t) (length flags : Nat) (allocName : String) :
    Except ucs_status_t (Nat × Nat × Nat) :=
  match uct_mem_check_flags flags with
  | UCS_OK => md.ops.mem_alloc length flags allocName
  | s => .error s

/-- `uct_md_mem_reg` (uct_md.c:447-462): reject a zero length or NULL
address (address 0 models NULL), then check the access flags, then delegate
to the component's `mem_reg`. -/
def uct_md_mem_reg (md : uct_md_t) (address length flags : Nat) :
    Except ucs_status_t Nat :=
  if length = 0 ∨ address = 0 then
    .error UCS_ERR_INVALID_PARAM
  else
    match uct_mem_check_flags flags with
    | UCS_OK => md.ops.mem_reg address length flags
    | s => .error s

/-- Interface-open parameters (`uct_iface_params_t`): the field mask, the
open mode word, and `mode.device.tl_name` (an optional C string). The
worker and config arguments of `uct_iface_open` are passed through to the
transport untouched and do not influence dispatch, so they are folded into
`uct_tl_component_t.iface_open_result`. -/
structure uct_iface_params_t where
  field_mask : Nat
  open_mode : Nat
  dev_tl_name : Option String

/-- `uct_iface_open` (uct_md.c:270-304): query the md, require the
open-mode field (`UCT_CHECK_PARAM` returns `UCS_ERR_INVALID_PARAM`),
dispatch on the open mode to find a transport, and delegate to it; a NULL
transport gives `UCS_ERR_NO_DEVICE`. When the open mode matches no known
mode the C code returns the local `status` variable, which still holds the
`UCS_OK` of the preceding successful `uct_md_query`, and never writes
`*iface_p` (second component `none`). -/
def uct_iface_open (debugData : Bool) (md : uct_md_t)
    (params : uct_iface_params_t) : ucs_status_t × Option Nat :=
  match uct_md_query debugData md with
  | .error s => (s, none)
  | .ok md_attr =>
    if params.field_mask &&& UCT_IFACE_PARAM_FIELD_OPEN_MODE = 0 then
      (UCS_ERR_INVALID_PARAM, none)
    else if params.open_mode &&& UCT_IFACE_OPEN_MODE_DEVICE ≠ 0 then
      match uct_find_tl_on_md md.component md_attr.cap_flags params.dev_tl_name with
      | none => (UCS_ERR_NO_DEVICE, none)
      | some tlc => tlc.iface_open_result
    else if params.open_mode &&& UCT_IFACE_OPEN_MODE_SOCKADDR_CLIENT ≠ 0 ∨
            params.open_mode &&& UCT_IFACE_OPEN_MODE_SOCKADDR_SERVER ≠ 0 then
      match uct_find_tl_on_md md.component md_attr.cap_flags none with
      | none => (UCS_ERR_NO_DEVICE, none)
      | some tlc => tlc.iface_open_result
    else
      (UCS_OK, none)

/-- Modelled from the spec: the type tags a configuration field table may
carry (unsigned integer, time duration, string, bitmask); the ucs config
parser is part of this repository but not under src/. -/
inductive config_type_t where
  | UINT
  | TIME
  | STRING
  | BITMAP
deriving DecidableEq, Repr

/-- Modelled from the spec: a typed configuration value stored in a
bundle's payload, one constructor per recognized type tag. -/
inductive config_value_t where
  | uintV (n : Nat)
  | timeV (n : Nat)
  | strV (s : String)
  | bitsV (n : Nat)
deriving DecidableEq, Repr

/-- Modelled from the spec: one entry of a configuration field table
(`ucs_config_field_t`): option name, default literal and type tag; the
payload offset is represented by keying the payload on the field name. -/
structure config_field_t where
  name : String
  defaultLit : String
  typeTag : config_type_t
deriving DecidableEq, Repr

/-- Decimal digit run to a number; helper of the modelled config parser. -/
def parseDecDigits : List Char → Nat → Option Nat
  | [], acc => some acc
  | c :: rest, acc =>
      if c.isDigit then parseDecDigits rest (acc * 10 + (c.toNat - 48))
      else none

/-- Modelled from the spec: parse a nonempty decimal numeral. -/
def parseDecNat (s : String) : Option Nat :=
  if s.data.isEmpty then none else parseDecDigits s.data 0

/-- Modelled from the spec: parse a string option value according to the
field's type tag. -/
def config_parse (t : config_type_t) (s : String) : Option config_value_t :=
  match t with
  | .UINT => (parseDecNat s).map .uintV
  | .TIME => (parseDecNat s).map .timeV
  | .STRING => some (.strV s)
  | .BITMAP => (parseDecNat s).map .bitsV

/-- Modelled from the spec: stringify a stored configuration value in the
same format its type tag parses. -/
def config_stringify (v : config_value_t) : String :=
  match v with
  | .uintV n => toString n
  | .timeV n => toString n
  | .strV s => s
  | .bitsV n => toString n

/-- Payload region of a configuration bundle, keyed by field name. -/
def config_data_t : Type := List (String × config_value_t)

/-- Configuration bundle (`uct_config_bundle_t`, uct_md.c:52-56): the
originating field table, the copy of the table prefix made by `ucs_strdup`
(field `table_prefix` in C), and the opaque payload. -/
structure uct_config_bundle_t where
  table : List config_field_t
  tablePfx : String
  data : config_data_t

/-- Modelled from the spec: `ucs_config_parser_get_value` scans the table
for the field name and stringifies the stored value per the field's type
tag; an absent name is a distinct not-found failure (`UCS_ERR_NO_ELEM`),
not a value mismatch. The C `max` truncation bound is not modelled. -/
def ucs_config_parser_get_value (data : config_data_t)
    (table : List config_field_t) (name : String) : Except ucs_status_t String :=
  match table.find? (fun f => f.name == name) with
  | none => .error UCS_ERR_NO_ELEM
  | some _ =>
    match data.lookup name with
    | some v => .ok (config_stringify v)
    | none => .error UCS_ERR_NO_ELEM

/-- Modelled from the spec: `ucs_config_parser_set_value` scans the table
for the field name and parses the new value per the field's type tag,
storing it in the payload; an absent name is the not-found failure, an
unparsable value a parameter error. -/
def ucs_config_parser_set_value (data : config_data_t)
    (table : List config_field_t) (name value : String) :
    Except ucs_status_t config_data_t :=
  match table.find? (fun f => f.name == name) with
  | none => .error UCS_ERR_NO_ELEM
  | some f =>
    match config_parse f.typeTag value with
    | none => .error UCS_ERR_INVALID_PARAM
    | some v => .ok ((name, v) :: data.filter (fun p => p.1 != name))

/-- `uct_config_get` (uct_md.c:335-341): recover the bundle from the
config pointer and delegate to the parser's get. -/
def uct_config_get (bundle : uct_config_bundle_t) (name : String) :
    Except ucs_status_t String :=
  ucs_config_parser_get_value bundle.data bundle.table name

/-- `uct_config_modify` (uct_md.c:343-347): recover the bundle from the
config pointer and delegate to the parser's set; the updated bundle is
returned (the C code updates the payload in place). -/
def uct_config_modify (bundle : uct_config_bundle_t) (name value : String) :
    Except ucs_status_t uct_config_bundle_t :=
  match ucs_config_parser_set_value bundle.data bundle.table name value with
  | .error s => .error s
  | .ok d => .ok { bundle with data := d }

/-- Heap event of `uct_config_read`: id 0 is the `ucs_calloc`ed bundle,
id 1 the `ucs_strdup`ed prefix copy. -/
inductive alloc_event_t where
  | alloc (id : Nat)
  | free (id : Nat)
deriving DecidableEq, Repr

/-- Ids allocated in a trace. -/
def allocatedIds (tr : List alloc_event_t) : List Nat :=
  tr.filterMap (fun e => match e with | .alloc i => some i | .free _ => none)

/-- Ids freed in a trace. -/
def freedIds (tr : List alloc_event_t) : List Nat :=
  tr.filterMap (fun e => match e with | .alloc _ => none | .free i => some i)

/-- Ids allocated but never freed in a trace. -/
def leakedIds (tr : List alloc_event_t) : List Nat :=
  (allocatedIds tr).filter (fun i => !((freedIds tr).contains i))

/-- `uct_config_read` (uct_md.c:180-215). `callocOk` and `strdupOk` say
whether the two allocations succeed, `fillResult` is the outcome of the
external `ucs_config_parser_fill_opts` on the payload. Returns the call's
result paired with its heap trace: a failed calloc returns `NO_MEMORY`
having allocated nothing; a fill failure frees the bundle and propagates
the parser's status; a failed strdup frees the bundle and returns
`NO_MEMORY`; on success the bundle (id 0) and prefix copy (id 1) stay live,
owned by the returned bundle. -/
def uct_config_read (callocOk : Bool)
    (fillResult : Except ucs_status_t config_data_t) (strdupOk : Bool)
    (config_table : List config_field_t) (cfgPfx : String) :
    Except ucs_status_t uct_config_bundle_t × List alloc_event_t :=
  if callocOk = false then
    (.error UCS_ERR_NO_MEMORY, [])
  else
    match fillResult with
    | .error s => (.error s, [.alloc 0, .free 0])
    | .ok d =>
      if strdupOk = false then
        (.error UCS_ERR_NO_MEMORY, [.alloc 0, .free 0])
      else
        (.ok ⟨config_table, cfgPfx, d⟩, [.alloc 0, .alloc 1])

/-- Concrete transport "rc_verbs" advertising two resources; test fixture. -/
def rcVerbsTl : uct_tl_component_t :=
  { name := "rc_verbs"
    query_resources := .ok [⟨"rc_verbs", "mlx5_0", 1⟩, ⟨"rc_verbs", "mlx5_1", 1⟩]
    iface_open_result := (UCS_OK, some 1) }

/-- Concrete transport "rc_mlx5" advertising three resources; test fixture. -/
def rcMlx5Tl : uct_tl_component_t :=
  { name := "rc_mlx5"
    query_resources := .ok [⟨"rc_mlx5", "mlx5_0", 1⟩, ⟨"rc_mlx5", "mlx5_1", 1⟩,
                            ⟨"rc_mlx5", "mlx5_2", 1⟩]
    iface_open_result := (UCS_OK, some 2) }

/-- Concrete transport whose resource query fails; test fixture. -/
def failTl : uct_tl_component_t :=
  { name := "fail_tl"
    query_resources := .error UCS_ERR_UNSUPPORTED
    iface_open_result := (UCS_ERR_UNSUPPORTED, none) }

/-- Concrete transport reporting zero resources; test fixture. -/
def emptyTl : uct_tl_component_t :=
  { name := "empty_tl"
    query_resources := .ok []
    iface_open_result := (UCS_OK, some 3) }

/-- Concrete transport whose descriptors carry a foreign name, violating the
tagging obligation; test fixture. -/
def mistaggedTl : uct_tl_component_t :=
  { name := "bad_tl"
    query_resources := .ok [⟨"other_tl", "dev0", 1⟩]
    iface_open_result := (UCS_OK, some 4) }

/-- Bytes of the component name "rc" padded to the fixed width. -/
def rcCompName : List Nat := [114, 99] ++ List.replicate 14 0

/-- Concrete MD component owning four transports; test fixture. -/
def rcComponent : uct_md_component_t :=
  { name := rcCompName
    tl_list := [rcVerbsTl, failTl, emptyTl, rcMlx5Tl]
    rkey_unpack := fun payload => .ok (payload.length, none) }

/-- Concrete MD attributes as written by the component's query. -/
def rcAttr : uct_md_attr_t :=
  { cap_flags := UCT_MD_FLAG_SOCKADDR
    cap_max_alloc := 4096
    cap_max_reg := 4096
    reg_cost := 5
    local_cpus := 1
    rkey_packed_size := 8
    component_name := List.replicate 16 0 }

/-- Concrete MD operation table; test fixture. -/
def rcOps : uct_md_ops_t :=
  { query := .ok rcAttr
    mem_alloc := fun len _flags _allocName => .ok (len, 4096, 7)
    mem_reg := fun _address _len _flags => .ok 9 }

/-- Concrete opened MD; test fixture. -/
def rcMd : uct_md_t := { component := rcComponent, ops := rcOps }

/-- The concatenation loop, when every realloc succeeds and every transport
tags its descriptors with its own name, returns the accumulator followed by
the concatenation of all successful query results. -/
theorem query_loop_ok_of_tagged (allocOk : Nat → Bool)
    (hall : ∀ k, allocOk k = true) :
    ∀ (tls : List uct_tl_component_t),
      (∀ t ∈ tls, ∀ r ∈ tl_query_ok t, r.tl_name = t.name) →
      ∀ (k : Nat) (acc : List uct_tl_resource_desc_t),
        uct_md_query_tl_resources_loop allocOk tls k acc
          = QueryTLResult.ok (acc ++ (tls.map tl_query_ok).flatten) := by
  intro tls
  induction tls with
  | nil =>
    intro _ k acc
    simp [uct_md_query_tl_resources_loop]
  | cons t rest ih =>
    intro htag k acc
    have htagT : ∀ r ∈ tl_query_ok t, r.tl_name = t.name :=
      htag t (by simp)
    have htagRest : ∀ t2 ∈ rest, ∀ r ∈ tl_query_ok t2, r.tl_name = t2.name :=
      fun t2 h2 => htag t2 (by simp [h2])
    unfold uct_md_query_tl_resources_loop
    cases hq : t.query_resources with
    | error e =>
      have hnil : tl_query_ok t = [] := by simp [tl_query_ok, hq]
      simp [ih htagRest k acc, hnil]
    | ok l =>
      by_cases hl : l.length = 0
      · have hleq : l = [] := List.length_eq_zero.mp hl
        have hnil : tl_query_ok t = [] := by simp [tl_query_ok, hq, hleq]
        simp [hl, ih htagRest k acc, hnil]
      · have hOkT : tl_query_ok t = l := by simp [tl_query_ok, hq]
        have hAll : l.all (fun r => r.tl_name == t.name) = true :=
          List.all_eq_true.mpr fun r hr =>
            beq_iff_eq.mpr (htagT r (hOkT ▸ hr))
        simp [hl, hall k, hAll, ih htagRest (k + 1) (acc ++ l), hOkT,
          List.append_assoc]

/-- C1: with registered transports T1..Tn whose queries fail or succeed
with some counts, `uct_md_query_tl_resources` returns OK with exactly the
concatenation of the non-failing transports' descriptor lists (a failing
query or a zero count contributing no entries and aborting nothing), whose
length is the sum of the non-failing counts, every entry carrying its
originating transport's name. -/
theorem uct_md_query_tl_resources_complete (md : uct_md_t) (allocOk : Nat → Bool)
    (hall : ∀ k, allocOk k = true)
    (htag : ∀ t ∈ md.component.tl_list, ∀ r ∈ tl_query_ok t, r.tl_name = t.name) :
    uct_md_query_tl_resources md allocOk
        = QueryTLResult.ok ((md.component.tl_list.map tl_query_ok).flatten)
      ∧ ((md.component.tl_list.map tl_query_ok).flatten).length
          = (md.component.tl_list.map (fun t => (tl_query_ok t).length)).sum
      ∧ ∀ r ∈ (md.component.tl_list.map tl_query_ok).flatten,
          ∃ t ∈ md.component.tl_list, r.tl_name = t.name := by
  refine ⟨?_, ?_, ?_⟩
  · have h := query_loop_ok_of_tagged allocOk hall md.component.tl_list htag 0 []
    simpa [uct_md_query_tl_resources] using h
  · rw [List.length_flatten, List.map_map]
    rfl
  · intro r hr
    rcases List.mem_flatten.mp hr with ⟨s, hs, hrs⟩
    rcases List.mem_map.mp hs with ⟨t, ht, rfl⟩
    exact ⟨t, ht, htag t ht r hrs⟩

/-- C1 witness: on the concrete component registering "rc_verbs" (2
resources), a failing transport, a zero-resource transport and "rc_mlx5"
(3 resources), discovery succeeds with the 5 concatenated entries. -/
theorem uct_md_query_tl_resources_complete_witness :
    uct_md_query_tl_resources rcMd (fun _ => true)
        = QueryTLResult.ok ((rcMd.component.tl_list.map tl_query_ok).flatten)
      ∧ ((rcMd.component.tl_list.map tl_query_ok).flatten).length
          = (rcMd.component.tl_list.map (fun t => (tl_query_ok t).length)).sum
      ∧ ∀ r ∈ (rcMd.component.tl_list.map tl_query_ok).flatten,
          ∃ t ∈ rcMd.component.tl_list, r.tl_name = t.name :=
  uct_md_query_tl_resources_complete rcMd (fun _ => true)
    (fun _ => rfl) (by decide)

/-- Whenever the concatenation loop reaches a refused realloc, it returns
`UCS_ERR_NO_MEMORY` (having freed the accumulated array); the accumulator
never escapes into the result. -/
theorem query_loop_err_of_failed_realloc (allocOk : Nat → Bool) :
    ∀ (tls : List uct_tl_component_t) (k : Nat)
      (acc : List uct_tl_resource_desc_t),
      reachesFailedRealloc allocOk tls k = true →
      uct_md_query_tl_resources_loop allocOk tls k acc
        = QueryTLResult.err UCS_ERR_NO_MEMORY := by
  intro tls
  induction tls with
  | nil =>
    intro k acc h
    simp [reachesFailedRealloc] at h
  | cons t rest ih =>
    intro k acc h
    unfold reachesFailedRealloc at h
    unfold uct_md_query_tl_resources_loop
    cases hq : t.query_resources with
    | error e =>
      simp only [hq] at h ⊢
      exact ih k acc h
    | ok l =>
      simp only [hq] at h ⊢
      by_cases hl : l.length = 0
      · simp only [if_pos hl] at h ⊢
        exact ih k acc h
      · simp only [if_neg hl] at h ⊢
        by_cases ha : allocOk k = false
        · simp only [if_pos ha]
        · simp only [if_neg ha] at h ⊢
          by_cases hall : l.all (fun r => r.tl_name == t.name) = true
          · simp only [if_pos hall] at h ⊢
            exact ih (k + 1) (acc ++ l) h
          · simp only [if_neg hall] at h
            exact absurd h (by simp)

/-- C2: if the concatenation loop of `uct_md_query_tl_resources` reaches a
`ucs_realloc` that fails, the call frees the accumulated array and returns
`UCS_ERR_NO_MEMORY`; the error result carries no descriptor list, modelling
that the output parameters are not written on this path. -/
theorem uct_md_query_tl_resources_realloc_failure (md : uct_md_t)
    (allocOk : Nat → Bool)
    (h : reachesFailedRealloc allocOk md.component.tl_list 0 = true) :
    uct_md_query_tl_resources md allocOk
      = QueryTLResult.err UCS_ERR_NO_MEMORY :=
  query_loop_err_of_failed_realloc allocOk md.component.tl_list 0 [] h

/-- C2 witness: on the concrete component, with an allocator refusing every
realloc, discovery reaches the first concatenation and fails with
`UCS_ERR_NO_MEMORY`. -/
theorem uct_md_query_tl_resources_realloc_failure_witness :
    uct_md_query_tl_resources rcMd (fun _ => false)
      = QueryTLResult.err UCS_ERR_NO_MEMORY :=
  uct_md_query_tl_resources_realloc_failure rcMd (fun _ => false) (by decide)

/-- Under the tagging obligation the concatenation loop never trips the
always-enabled name assertion, whatever the allocator does. -/
theorem query_loop_no_assert_of_tagged (allocOk : Nat → Bool) :
    ∀ (tls : List uct_tl_component_t),
      (∀ t ∈ tls, ∀ r ∈ tl_query_ok t, r.tl_name = t.name) →
      ∀ (k : Nat) (acc : List uct_tl_resource_desc_t),
        uct_md_query_tl_resources_loop allocOk tls k acc
          ≠ QueryTLResult.assertFailed := by
  intro tls
  induction tls with
  | nil =>
    intro _ k acc
    simp [uct_md_query_tl_resources_loop]
  | cons t rest ih =>
    intro htag k acc
    have htagT : ∀ r ∈ tl_query_ok t, r.tl_name = t.name := htag t (by simp)
    have htagRest : ∀ t2 ∈ rest, ∀ r ∈ tl_query_ok t2, r.tl_name = t2.name :=
      fun t2 h2 => htag t2 (by simp [h2])
    unfold uct_md_query_tl_resources_loop
    cases hq : t.query_resources with
    | error e =>
      simp only [hq]
      exact ih htagRest k acc
    | ok l =>
      simp only [hq]
      by_cases hl : l.length = 0
      · simp only [if_pos hl]
        exact ih htagRest k acc
      · simp only [if_neg hl]
        by_cases ha : allocOk k = false
        · simp only [if_pos ha]
          simp
        · simp only [if_neg ha]
          have hOkT : tl_query_ok t = l := by simp [tl_query_ok, hq]
          have hAll : l.all (fun r => r.tl_name == t.name) = true :=
            List.all_eq_true.mpr fun r hr =>
              beq_iff_eq.mpr (htagT r (hOkT ▸ hr))
          simp only [if_pos hAll]
          exact ih htagRest (k + 1) (acc ++ l)

/-- C9: when every transport tags its descriptors with its own name, the
assertion-failure branch of `uct_md_query_tl_resources` is unreachable
under any allocator behaviour; and a transport returning a descriptor
tagged with a foreign name aborts the call at the always-enabled assertion
instead of being skipped like a failing one. -/
theorem uct_md_query_tl_resources_assert_tagging (mdA mdB : uct_md_t)
    (allocOk : Nat → Bool) (bad : uct_tl_component_t)
    (l : List uct_tl_resource_desc_t) (rest : List uct_tl_component_t) :
    ((∀ t ∈ mdA.component.tl_list, ∀ r ∈ tl_query_ok t, r.tl_name = t.name) →
        uct_md_query_tl_resources mdA allocOk ≠ QueryTLResult.assertFailed)
    ∧ (mdB.component.tl_list = bad :: rest →
        bad.query_resources = Except.ok l →
        (∃ r ∈ l, ¬ r.tl_name = bad.name) →
        allocOk 0 = true →
        uct_md_query_tl_resources mdB allocOk = QueryTLResult.assertFailed) := by
  constructor
  · intro htag
    exact query_loop_no_assert_of_tagged allocOk mdA.component.tl_list htag 0 []
  · intro hlist hq hbadr halloc
    have hne : ¬ l.length = 0 := by
      rcases hbadr with ⟨r, hr, _⟩
      intro h0
      rw [List.length_eq_zero.mp h0] at hr
      simp at hr
    have hAll : ¬ l.all (fun r => r.tl_name == bad.name) = true := by
      intro hall
      rcases hbadr with ⟨r, hr, hrne⟩
      exact hrne (beq_iff_eq.mp (List.all_eq_true.mp hall r hr))
    unfold uct_md_query_tl_resources
    rw [hlist]
    unfold uct_md_query_tl_resources_loop
    simp only [hq, if_neg hne, if_neg (show ¬ allocOk 0 = false by simp [halloc]),
      if_neg hAll]

/-- MD whose component registers the mistagged transport first; fixture for
the assertion claim. -/
def badMd : uct_md_t :=
  { component :=
      { name := rcCompName
        tl_list := [mistaggedTl, rcVerbsTl]
        rkey_unpack := fun payload => .ok (payload.length, none) }
    ops := rcOps }

/-- C9 witness: the well-tagged concrete component never aborts, and the
component whose first transport mistags its descriptor aborts. -/
theorem uct_md_query_tl_resources_assert_tagging_witness :
    (uct_md_query_tl_resources rcMd (fun _ => true) ≠ QueryTLResult.assertFailed)
    ∧ uct_md_query_tl_resources badMd (fun _ => true)
        = QueryTLResult.assertFailed :=
  ⟨(uct_md_query_tl_resources_assert_tagging rcMd badMd (fun _ => true)
      mistaggedTl [⟨"other_tl", "dev0", 1⟩] [rcVerbsTl]).1 (by decide),
   (uct_md_query_tl_resources_assert_tagging rcMd badMd (fun _ => true)
      mistaggedTl [⟨"other_tl", "dev0", 1⟩] [rcVerbsTl]).2 rfl rfl
      ⟨⟨"other_tl", "dev0", 1⟩, by decide, by decide⟩ rfl⟩

/-- The `strncmp` comparison reads at most its first n bytes of the buffer:
replacing everything after the n-byte region leaves its verdict unchanged. -/
theorem strncmpIsEq_take_append (extra b : List Nat) :
    ∀ (n : Nat) (a : List Nat), n ≤ a.length →
      strncmpIsEq (a.take n ++ extra) b n = strncmpIsEq a b n := by
  intro n
  show ∀ a, n ≤ a.length →
    strncmpEqAux n (a.take n ++ extra) b = strncmpEqAux n a b
  induction n generalizing b with
  | zero => intro a _; rfl
  | succ n ih =>
    intro a h
    cases a with
    | nil => simp at h
    | cons x xs =>
      cases b with
      | nil => rfl
      | cons y ys =>
        simp only [List.take_succ_cons, List.cons_append, strncmpEqAux]
        by_cases hxy : x ≠ y
        · rw [if_pos hxy, if_pos hxy]
        · rw [if_neg hxy, if_neg hxy]
          by_cases hx0 : x = 0
          · rw [if_pos hx0, if_pos hx0]
          · rw [if_neg hx0, if_neg hx0]
            exact ih ys xs (Nat.le_of_succ_le_succ h)

/-- C3: with debug identity enabled (`ENABLE_DEBUG_DATA` and
`ENABLE_PARAMS_CHECK`), `uct_rkey_unpack` compares the buffer's leading
fixed-width region to the component's name: on mismatch it returns
`UCS_ERR_INVALID_PARAM` without invoking the component, and the verdict is
unchanged by whatever follows the leading region; on match it forwards
exactly the payload past the region to the component's unpack operation. -/
theorem uct_rkey_unpack_debug_identity (c : uct_md_component_t)
    (buf extra : List Nat) :
    (uct_rkey_unpack true true c buf
        = if strncmpIsEq buf c.name UCT_MD_COMPONENT_NAME_MAX
          then c.rkey_unpack (buf.drop UCT_MD_COMPONENT_NAME_MAX)
          else .error UCS_ERR_INVALID_PARAM)
    ∧ (UCT_MD_COMPONENT_NAME_MAX ≤ buf.length →
        strncmpIsEq buf c.name UCT_MD_COMPONENT_NAME_MAX = false →
        uct_rkey_unpack true true c
            (buf.take UCT_MD_COMPONENT_NAME_MAX ++ extra)
          = .error UCS_ERR_INVALID_PARAM) := by
  constructor
  · cases hs : strncmpIsEq buf c.name UCT_MD_COMPONENT_NAME_MAX <;>
      simp [uct_rkey_unpack, hs]
  · intro hlen hs
    have hrw := strncmpIsEq_take_append extra c.name
      UCT_MD_COMPONENT_NAME_MAX buf hlen
    rw [hs] at hrw
    simp [uct_rkey_unpack, hrw]

/-- C3 witness: unpacking against the "rc" component a buffer whose leading
region does not spell "rc" is rejected, and the rejection is independent of
the bytes after the leading region. -/
theorem uct_rkey_unpack_debug_identity_witness :
    (uct_rkey_unpack true true rcComponent (List.replicate 16 1)
        = if strncmpIsEq (List.replicate 16 1) rcComponent.name
              UCT_MD_COMPONENT_NAME_MAX
          then rcComponent.rkey_unpack
              ((List.replicate 16 1).drop UCT_MD_COMPONENT_NAME_MAX)
          else .error UCS_ERR_INVALID_PARAM)
    ∧ uct_rkey_unpack true true rcComponent
          ((List.replicate 16 1).take UCT_MD_COMPONENT_NAME_MAX ++ [7])
        = .error UCS_ERR_INVALID_PARAM :=
  ⟨(uct_rkey_unpack_debug_identity rcComponent (List.replicate 16 1) [7]).1,
   (uct_rkey_unpack_debug_identity rcComponent (List.replicate 16 1) [7]).2
     (by decide) (by decide)⟩

/-- Scanning a transport list by name is insensitive to the orientation of
the string comparison. -/
theorem find?_name_beq_comm (n : String) :
    ∀ (ts : List uct_tl_component_t),
      ts.find? (fun tl => n == tl.name) = ts.find? (fun tl => tl.name == n) := by
  intro ts
  induction ts with
  | nil => rfl
  | cons t ts ih =>
    simp only [List.find?_cons]
    by_cases h : n = t.name
    · simp [h]
    · have h1 : (n == t.name) = false := by simp [h]
      have h2 : (t.name == n) = false := by simp [Ne.symm h]
      simp [h1, h2, ih]

/-- A scan whose per-element condition is constant returns the head when
the condition holds and nothing otherwise. -/
theorem find?_const_cond (c : Bool) :
    ∀ (ts : List uct_tl_component_t),
      ts.find? (fun _ => c) = (if c = true then ts.head? else none) := by
  intro ts
  induction ts with
  | nil => cases c <;> rfl
  | cons t ts ih =>
    cases c with
    | false => simp only [List.find?_cons]; simp [ih]
    | true => simp only [List.find?_cons]; simp

/-- C4: `uct_find_tl_on_md` with a transport name returns the first
registered transport with exactly that name; with no name it returns the
first registered transport when the md advertises the sockaddr capability
bit and the not-found sentinel `none` otherwise — a sentinel in the
`Option` result, distinct from any `ucs_status_t` error. -/
theorem uct_find_tl_on_md_spec (mdc : uct_md_component_t) (md_flags : Nat)
    (n : String) :
    uct_find_tl_on_md mdc md_flags (some n)
        = mdc.tl_list.find? (fun tl => tl.name == n)
    ∧ uct_find_tl_on_md mdc md_flags none
        = (if md_flags &&& UCT_MD_FLAG_SOCKADDR ≠ 0
           then mdc.tl_list.head? else none) := by
  constructor
  · exact find?_name_beq_comm n mdc.tl_list
  · rw [uct_find_tl_on_md, find?_const_cond]
    by_cases h : md_flags &&& UCT_MD_FLAG_SOCKADDR = 0 <;> simp [h]

/-- C5: `uct_md_mem_reg` rejects a NULL address, a zero length, and flags
containing no access bit with `UCS_ERR_INVALID_PARAM` before the
component's `mem_reg` is consulted, and `uct_md_mem_alloc` likewise rejects
flags containing no access bit — for every md, hence regardless of the
component's behaviour. -/
theorem uct_md_mem_param_checks (md : uct_md_t) (address len flags : Nat)
    (allocName : String) :
    ((address = 0 ∨ len = 0 ∨ flags &&& UCT_MD_MEM_ACCESS_ALL = 0) →
        uct_md_mem_reg md address len flags = .error UCS_ERR_INVALID_PARAM)
    ∧ (flags &&& UCT_MD_MEM_ACCESS_ALL = 0 →
        uct_md_mem_alloc md len flags allocName
          = .error UCS_ERR_INVALID_PARAM) := by
  constructor
  · rintro (h | h | h)
    · simp [uct_md_mem_reg, h]
    · simp [uct_md_mem_reg, h]
    · by_cases h0 : len = 0 ∨ address = 0
      · simp [uct_md_mem_reg, h0]
      · simp [uct_md_mem_reg, h0, uct_mem_check_flags, h]
  · intro h
    simp [uct_md_mem_alloc, uct_mem_check_flags, h]

/-- C5 witness: registering at NULL with valid flags, and allocating with
flags holding no access bit, are both rejected on the concrete md whose
component would have accepted them. -/
theorem uct_md_mem_param_checks_witness :
    uct_md_mem_reg rcMd 0 10 UCT_MD_MEM_ACCESS_ALL
        = .error UCS_ERR_INVALID_PARAM
    ∧ uct_md_mem_alloc rcMd 10 0 "buf" = .error UCS_ERR_INVALID_PARAM :=
  ⟨(uct_md_mem_param_checks rcMd 0 10 UCT_MD_MEM_ACCESS_ALL "buf").1
      (Or.inl rfl),
   (uct_md_mem_param_checks rcMd 4096 10 0 "buf").2 rfl⟩

/-- C10: when the component's query succeeds, `uct_md_query` returns its
attributes with every field unchanged except the component name, which is
overwritten with the owning component's fixed-width name, and the packed
rkey size, which grows by exactly `UCT_MD_COMPONENT_NAME_MAX` when
`ENABLE_DEBUG_DATA` is set and is returned exactly as the component wrote
it otherwise. -/
theorem uct_md_query_frame (debugData : Bool) (md : uct_md_t)
    (attr0 : uct_md_attr_t) (hq : md.ops.query = Except.ok attr0) :
    uct_md_query debugData md = Except.ok
      { attr0 with
          component_name := md.component.name
          rkey_packed_size := attr0.rkey_packed_size
            + (if debugData then UCT_MD_COMPONENT_NAME_MAX else 0) } := by
  unfold uct_md_query
  simp only [hq]
  cases debugData <;> simp

/-- C10 witness: on the concrete md, the debug-mode query keeps the
capability fields, grows the packed rkey size by the name width and
installs the component's name. -/
theorem uct_md_query_frame_witness :
    uct_md_query true rcMd = Except.ok
      { rcAttr with
          component_name := rcMd.component.name
          rkey_packed_size := rcAttr.rkey_packed_size
            + (if true then UCT_MD_COMPONENT_NAME_MAX else 0) } :=
  uct_md_query_frame true rcMd rcAttr rfl

/-- C6: when the parameters carry the open-mode field but its value matches
none of the recognized modes, `uct_iface_open` returns the `UCS_OK` left in
its local status variable by the preceding successful md query — not a
parameter-contract error — and the interface out parameter stays
unwritten. -/
theorem uct_iface_open_invalid_mode (debugData : Bool) (md : uct_md_t)
    (params : uct_iface_params_t) (attr : uct_md_attr_t)
    (hq : md.ops.query = Except.ok attr)
    (hf : params.field_mask &&& UCT_IFACE_PARAM_FIELD_OPEN_MODE ≠ 0)
    (hd : params.open_mode &&& UCT_IFACE_OPEN_MODE_DEVICE = 0)
    (hc : params.open_mode &&& UCT_IFACE_OPEN_MODE_SOCKADDR_CLIENT = 0)
    (hs : params.open_mode &&& UCT_IFACE_OPEN_MODE_SOCKADDR_SERVER = 0) :
    uct_iface_open debugData md params = (UCS_OK, none) := by
  unfold uct_iface_open uct_md_query
  simp [hq, hf, hd, hc, hs]

/-- C6 witness: open mode 8 is none of the recognized modes; on the
concrete md the call reports success while opening nothing. -/
theorem uct_iface_open_invalid_mode_witness :
    uct_iface_open false rcMd ⟨1, 8, none⟩ = (UCS_OK, none) :=
  uct_iface_open_invalid_mode false rcMd ⟨1, 8, none⟩ rcAttr rfl
    (by decide) (by decide) (by decide) (by decide)

/-- C7: `uct_config_read` never leaks a partially-built bundle: on any
failure (bundle allocation, field parsing, prefix copy) every allocation it
made has been freed again and the escaping status is either its own
`UCS_ERR_NO_MEMORY` or the parser's propagated error; on success the
returned bundle is fully initialized, holding the table, the prefix copy
and exactly the parsed payload. -/
theorem uct_config_read_rollback (callocOk strdupOk : Bool)
    (fill : Except ucs_status_t config_data_t)
    (table : List config_field_t) (pfx : String) :
    (∀ s, (uct_config_read callocOk fill strdupOk table pfx).1 = .error s →
        leakedIds (uct_config_read callocOk fill strdupOk table pfx).2 = []
        ∧ (s = UCS_ERR_NO_MEMORY ∨ fill = .error s))
    ∧ (∀ b, (uct_config_read callocOk fill strdupOk table pfx).1 = .ok b →
        b.table = table ∧ b.tablePfx = pfx ∧ fill = .ok b.data) := by
  cases callocOk <;> cases fill <;> cases strdupOk <;>
    refine ⟨fun s hs => ?_, fun b hb => ?_⟩ <;>
      simp_all [uct_config_read, leakedIds, allocatedIds, freedIds, eq_comm]

/-- C7 witness: a parse failure after a successful bundle allocation frees
the bundle (no live allocation remains) and propagates the parser's
status. -/
theorem uct_config_read_rollback_witness :
    leakedIds (uct_config_read true (.error UCS_ERR_UNSUPPORTED) true []
        "UCT_").2 = []
    ∧ (UCS_ERR_UNSUPPORTED = UCS_ERR_NO_MEMORY
        ∨ (Except.error UCS_ERR_UNSUPPORTED :
            Except ucs_status_t config_data_t) = .error UCS_ERR_UNSUPPORTED) :=
  (uct_config_read_rollback true true (.error UCS_ERR_UNSUPPORTED) []
      "UCT_").1 UCS_ERR_UNSUPPORTED rfl

/-- C8: on a bundle whose table holds a field named `name`, setting that
field to "7" succeeds and a following get returns exactly "7", for every
recognized type tag; getting a name absent from the table fails with the
distinct not-found status `UCS_ERR_NO_ELEM`, an error result rather than
any mismatching value. -/
theorem uct_config_set_get_roundtrip (bundle : uct_config_bundle_t)
    (name absentName : String) (field : config_field_t)
    (hfind : bundle.table.find? (fun f => f.name == name) = some field)
    (habsent : bundle.table.find? (fun f => f.name == absentName) = none) :
    (∃ b2, uct_config_modify bundle name "7" = Except.ok b2
        ∧ uct_config_get b2 name = Except.ok "7")
    ∧ uct_config_get bundle absentName = Except.error UCS_ERR_NO_ELEM
    ∧ ∀ v : String,
        (Except.error UCS_ERR_NO_ELEM : Except ucs_status_t String)
          ≠ Except.ok v := by
  refine ⟨?_, ?_, fun v h => by cases h⟩
  · have hparse : ∃ v, config_parse field.typeTag "7" = some v
        ∧ config_stringify v = "7" := by
      cases field.typeTag with
      | UINT => exact ⟨.uintV 7, by decide, by decide⟩
      | TIME => exact ⟨.timeV 7, by decide, by decide⟩
      | STRING => exact ⟨.strV "7", rfl, rfl⟩
      | BITMAP => exact ⟨.bitsV 7, by decide, by decide⟩
    rcases hparse with ⟨v, hpv, hsv⟩
    refine ⟨{ bundle with data :=
        (name, v) :: bundle.data.filter (fun p => p.1 != name) }, ?_, ?_⟩
    · simp [uct_config_modify, ucs_config_parser_set_value, hfind, hpv]
    · simp [uct_config_get, ucs_config_parser_get_value, hfind,
        List.lookup, hsv]
  · simp [uct_config_get, ucs_config_parser_get_value, habsent]

/-- Concrete configuration bundle over a one-field table; test fixture. -/
def sampleBundle : uct_config_bundle_t :=
  { table := [⟨"X", "0", .UINT⟩]
    tablePfx := "UCT_"
    data := [("X", .uintV 0)] }

/-- C8 witness: on the concrete bundle, set field "X" to "7" then get it
back as "7"; getting the absent "Y" is the distinct not-found failure. -/
theorem uct_config_set_get_roundtrip_witness :
    (∃ b2, uct_config_modify sampleBundle "X" "7" = Except.ok b2
        ∧ uct_config_get b2 "X" = Except.ok "7")
    ∧ uct_config_get sampleBundle "Y" = Except.error UCS_ERR_NO_ELEM
    ∧ ∀ v : String,
        (Except.error UCS_ERR_NO_ELEM : Except ucs_status_t String)
          ≠ Except.ok v :=
  uct_config_set_get_roundtrip sampleBundle "X" "Y" ⟨"X", "0", .UINT⟩
    (by decide) (by decide)
